import Mathlib

/-!
# Verification of the Bulb server's access-control core

A shallow embedding of the token issuance/verification code
(`internal/services/auth_service.go`), the ownership-authorization code
(`internal/services/collection_service.go`), the credential check
(`internal/services/user_service.go`), the auth/collection handlers, and the
configuration loader (`pkg/config/config.go`).

Modelling conventions:
* Times are Unix seconds as `Int`; each Go function that reads the wall
  clock takes the current time `now` as an explicit parameter (the several
  `time.Now()` calls inside one Go function are identified, which is the
  standard single-instant idealization).
* Go duration arithmetic is 64-bit: `time.Hour * time.Duration(e)` is an
  int64 product of nanoseconds and wraps around for `e` of magnitude
  2562048 hours or more, values the config loader accepts.  The wrap is
  modelled explicitly (`wrap64`), and `Time.Add(d).Unix()` floors the
  duration's nanoseconds to whole seconds (`Int.fdiv`).
* HMAC signing is idealized as a perfect MAC: a signature is the triple
  (method, key, payload) and verification is equality of triples.  This is
  the standard symbolic model of an unforgeable MAC.
* The JWT library behaviour embedded here is that of `golang-jwt/jwt/v4`,
  which the source imports: `ParseWithClaims` runs the key function,
  validates the registered claims (expiry, issued-at) and verifies the
  signature, accumulating error flags in a `ValidationError`, and returns
  that error when any flag is set.
-/

namespace Bulb

/-- JWT signing methods.  `HS256/384/512` are the `SigningMethodHMAC`
instances; the others stand for the non-HMAC methods an attacker could
declare in a token header. -/
inductive SigningMethod where
  | HS256
  | HS384
  | HS512
  | RS256
  | ES256
  | algNone
deriving DecidableEq, Repr

/-- The Go type switch `token.Method.(*jwt.SigningMethodHMAC)`. -/
def SigningMethod.isHMAC : SigningMethod → Bool
  | .HS256 => true
  | .HS384 => true
  | .HS512 => true
  | _ => false

/-- The struct `jwt.RegisteredClaims` as populated by this code base: `ExpiresAt`,
`IssuedAt` (Unix seconds) and `Issuer` are always set, `NotBefore` never is. -/
structure RegisteredClaims where
  expiresAt : Int
  issuedAt : Int
  issuer : String
deriving DecidableEq, Repr

/-- Go struct `services.AccessTokenClaims` (auth_service.go lines 30-35). -/
structure AccessTokenClaims where
  userID : Nat
  email : String
  uuid : String
  registered : RegisteredClaims
deriving DecidableEq, Repr

/-- Go struct `services.RefreshTokenClaims` (auth_service.go lines 38-42). -/
structure RefreshTokenClaims where
  userID : Nat
  uuid : String
  registered : RegisteredClaims
deriving DecidableEq, Repr

/-- Idealized MAC: the signature records the method, key and payload used
to produce it, and verifies only against that exact triple. -/
structure Signature (C : Type) where
  method : SigningMethod
  key : String
  payload : C
deriving DecidableEq, Repr

/-- A serialized token, as the verifier sees it: the header's declared
method, the (parsed) claim set, and the signature. -/
structure Token (C : Type) where
  method : SigningMethod
  claims : C
  sig : Signature C
deriving DecidableEq, Repr

/-- Signing, as in `jwt.NewWithClaims(method, claims).SignedString(key)`. -/
def signedToken {C : Type} (method : SigningMethod) (key : String) (claims : C) :
    Token C :=
  ⟨method, claims, ⟨method, key, claims⟩⟩

/-- The error-flag bitmask of `jwt/v4`'s `ValidationError`, restricted to
the flags reachable in this code base. -/
structure ValidationFlags where
  unverifiable : Bool := false
  signatureInvalid : Bool := false
  expired : Bool := false
  issuedAt : Bool := false
deriving DecidableEq, Repr

/-- Predicate `ValidationError.valid()`: no flag set. -/
def ValidationFlags.ok (v : ValidationFlags) : Bool :=
  !v.unverifiable && !v.signatureInvalid && !v.expired && !v.issuedAt

/-- The errors `ValidateAccessToken` / `ValidateRefreshToken` can return:
an error propagated from `jwt.ParseWithClaims`, or one of the service's
own sentinels (auth_service.go lines 14-17). -/
inductive TokenError where
  | validation (flags : ValidationFlags)
  | invalidToken
  | expiredToken
deriving DecidableEq, Repr

/-- The `jwt/v4` method `RegisteredClaims.Valid()` for a claim set where `ExpiresAt`
and `IssuedAt` are present and `NotBefore` is absent: the `expired` flag is
set unless `now < exp`, the `issuedAt` flag is set when `now < iat`. -/
def registeredClaimsValid (now : Int) (c : RegisteredClaims) : ValidationFlags :=
  { expired := !decide (now < c.expiresAt)
    issuedAt := decide (now < c.issuedAt) }

/-- The library function `jwt.ParseWithClaims` with the key function the service passes (reject
non-HMAC methods, otherwise hand back the configured secret): returns the
Go pair (token-valid flag, error).  The claims are `tok.claims` and on a
`none` error the valid flag is true, as in the library. -/
def parseWithClaims {C : Type} [DecidableEq C] (reg : C → RegisteredClaims)
    (secret : String) (now : Int) (tok : Token C) : Bool × Option TokenError :=
  if !tok.method.isHMAC then
    (false, some (.validation { unverifiable := true }))
  else
    let vErr := registeredClaimsValid now (reg tok.claims)
    let vErr :=
      if tok.sig = ⟨tok.method, secret, tok.claims⟩ then vErr
      else { vErr with signatureInvalid := true }
    if vErr.ok then (true, none) else (false, some (.validation vErr))

/-- Go method `authService.ValidateAccessToken` (auth_service.go lines 111-133). -/
def ValidateAccessToken (secret : String) (now : Int)
    (tok : Token AccessTokenClaims) : Except TokenError AccessTokenClaims :=
  match parseWithClaims (fun c => c.registered) secret now tok with
  | (_, some e) => .error e
  | (valid, none) =>
      if !valid then .error .invalidToken
      else if tok.claims.registered.expiresAt < now then .error .expiredToken
      else .ok tok.claims

/-- Go method `authService.ValidateRefreshToken` (auth_service.go lines 136-158). -/
def ValidateRefreshToken (secret : String) (now : Int)
    (tok : Token RefreshTokenClaims) : Except TokenError RefreshTokenClaims :=
  match parseWithClaims (fun c => c.registered) secret now tok with
  | (_, some e) => .error e
  | (valid, none) =>
      if !valid then .error .invalidToken
      else if tok.claims.registered.expiresAt < now then .error .expiredToken
      else .ok tok.claims

/-- Go struct `config.JWTConfig`: signing secret and access-token lifetime in hours. -/
structure JWTConfig where
  secret : String
  expiresIn : Int
deriving DecidableEq, Repr

/-- Idealized bcrypt digest: determines exactly the password it verifies. -/
structure BcryptHash where
  ofPassword : String
deriving DecidableEq, Repr

/-- Hashing, `bcrypt.GenerateFromPassword` (salt and cost abstracted away). -/
def generateFromPassword (password : String) : BcryptHash :=
  ⟨password⟩

/-- Comparison, `bcrypt.CompareHashAndPassword`, as a boolean (true = match). -/
def compareHashAndPassword (hash : BcryptHash) (password : String) : Bool :=
  hash = generateFromPassword password

/-- Go struct `models.User` (the fields the access-control core reads/writes). -/
structure User where
  id : Nat
  name : String
  surname : String
  email : String
  password : BcryptHash
  phone : String
deriving DecidableEq, Repr

/-- Go struct `services.TokenDetails` (auth_service.go lines 20-27), with the token
strings kept in structured form. -/
structure TokenDetails where
  accessToken : Token AccessTokenClaims
  refreshToken : Token RefreshTokenClaims
  accessUuid : String
  refreshUuid : String
  atExpires : Int
  rtExpires : Int
deriving DecidableEq, Repr

/-- Signed 64-bit wrap-around, the overflow behaviour of a Go int64
product (9223372036854775808 is 2 to the 63rd, 18446744073709551616 is 2
to the 64th). -/
def wrap64 (x : Int) : Int :=
  (x + 9223372036854775808) % 18446744073709551616 - 9223372036854775808

/-- Go method `authService.CreateToken` (auth_service.go lines 64-108).  `now` is the
issue instant; the freshly generated UUIDs are passed in.  The expiries
follow `time.Now().Add(d).Unix()`: the duration `d` is an int64 count of
nanoseconds — `time.Hour * time.Duration(ExpiresIn)` wraps at 64 bits for
large configured hours — and `Add(...).Unix()` floors it to seconds. -/
def CreateToken (cfg : JWTConfig) (now : Int) (accessUuid refreshUuid : String)
    (user : User) : TokenDetails :=
  let atExpires := now + Int.fdiv (wrap64 (3600000000000 * cfg.expiresIn)) 1000000000
  let rtExpires := now + Int.fdiv (wrap64 (3600000000000 * 24 * 7)) 1000000000
  let atClaims : AccessTokenClaims :=
    ⟨user.id, user.email, accessUuid, ⟨atExpires, now, "bulb-api"⟩⟩
  let rtClaims : RefreshTokenClaims :=
    ⟨user.id, refreshUuid, ⟨rtExpires, now, "bulb-api"⟩⟩
  { accessToken := signedToken .HS256 cfg.secret atClaims
    refreshToken := signedToken .HS256 cfg.secret rtClaims
    accessUuid := accessUuid
    refreshUuid := refreshUuid
    atExpires := atExpires
    rtExpires := rtExpires }

/-- Go parsing function `strconv.Atoi`: optional sign, at least one digit, digits only, and the
value must fit a 64-bit int. -/
def goAtoi (s : String) : Option Int :=
  let chars := s.data
  let (sign, digits) :=
    match chars with
    | '+' :: rest => ((1 : Int), rest)
    | '-' :: rest => ((-1 : Int), rest)
    | rest => ((1 : Int), rest)
  if digits = [] then none
  else if digits.all (fun c => c.isDigit) then
    let v : Int := sign * (digits.foldl (fun acc c => acc * 10 + (c.toNat - 48)) 0 : Nat)
    if -(2 ^ 63) ≤ v ∧ v < 2 ^ 63 then some v else none
  else none

/-- Function `config.loadFromEnv`, restricted to the `JWT.ExpiresIn` computation
(config.go lines 92-98): the env value `""` means the variable is unset;
a value that parses replaces the default 24, anything else keeps it. -/
def loadExpiresIn (envVal : String) : Int :=
  if envVal ≠ "" then
    match goAtoi envVal with
    | some parsed => parsed
    | none => 24
  else 24

/-- Go struct `models.Collection` (the `Actions` association and soft-delete column
are owned by the persistence layer and not read by the code under study). -/
structure Collection where
  id : Nat
  name : String
  description : String
  imageURL : String
  userID : Nat
  playCount : Int
  createdAt : Int
  updatedAt : Int
deriving DecidableEq, Repr

/-- Go struct `models.Action` (the fields the service layer reads/writes). -/
structure Action where
  id : Nat
  text : String
  collectionID : Nat
  order : Int
deriving DecidableEq, Repr

/-- The persistence state the services act on: the rows behind
`CollectionRepository`, `ActionRepository` and `UserRepository`. -/
structure Store where
  collections : List Collection
  actions : List Action
  users : List User
deriving DecidableEq, Repr

/-- Lookup `collectionRepo.GetByID`: `db.First(&collection, id)`. -/
def Store.findCollection (s : Store) (id : Nat) : Option Collection :=
  s.collections.find? (fun c => c.id = id)

/-- Lookup `actionRepo.GetByID`: `db.First(&action, id)`. -/
def Store.findAction (s : Store) (id : Nat) : Option Action :=
  s.actions.find? (fun a => a.id = id)

/-- Lookup `userRepo.GetByID`: `db.First(&user, id)`. -/
def Store.findUser (s : Store) (id : Nat) : Option User :=
  s.users.find? (fun u => u.id = id)

/-- Lookup `userRepo.GetByEmail`: `db.Where("email = ?", email).First(&user)`. -/
def Store.findUserByEmail (s : Store) (email : String) : Option User :=
  s.users.find? (fun u => u.email = email)

/-- Write `collectionRepo.Update`: `db.Save` replaces the row with the same
primary key. -/
def Store.saveCollection (s : Store) (c : Collection) : Store :=
  { s with collections := s.collections.map (fun c0 => if c0.id = c.id then c else c0) }

/-- The error values the service layer can return.  `recordNotFound` is
`gorm.ErrRecordNotFound`, the raw repository error; the rest are the
sentinels of `collection_service.go` / `user_service.go`. -/
inductive ServiceError where
  | collectionNotFound
  | invalidUserID
  | notCollectionOwner
  | userNotFound
  | emailAlreadyExists
  | invalidCredentials
  | recordNotFound
deriving DecidableEq, Repr

/-- The body the collection handler binds and passes down (`CollectionRequest`). -/
structure CollectionRequest where
  name : String
  description : String
  imageURL : String
deriving DecidableEq, Repr

/-- Go method `collectionService.Update` (collection_service.go lines 107-129).
`collection` is the record the handler builds from the request (its `id`
set from the URL, its `userID` left zero); `userID` is the authenticated
identity.  Returns the saved collection and the new store. -/
def collectionUpdate (s : Store) (collection : Collection) (userID : Nat)
    (now : Int) : Except ServiceError (Collection × Store) :=
  match s.findCollection collection.id with
  | none => .error .collectionNotFound
  | some existingCollection =>
      if existingCollection.userID ≠ userID then .error .notCollectionOwner
      else
        let updated :=
          { existingCollection with
            name := collection.name
            description := collection.description
            imageURL :=
              if collection.imageURL ≠ "" then collection.imageURL
              else existingCollection.imageURL
            updatedAt := now }
        .ok (updated, s.saveCollection updated)

/-- Go method `collectionService.Delete` (collection_service.go lines 132-146). -/
def collectionDelete (s : Store) (id : Nat) (userID : Nat) :
    Except ServiceError Store :=
  match s.findCollection id with
  | none => .error .collectionNotFound
  | some collection =>
      if collection.userID ≠ userID then .error .notCollectionOwner
      else .ok { s with collections := s.collections.filter (fun c => c.id ≠ id) }

/-- Go method `collectionService.RemoveAction` (collection_service.go lines 214-234).
Note the action lookup propagates the repository error verbatim
(`return err`), unlike the collection lookup which maps it to
`ErrCollectionNotFound`. -/
def removeAction (s : Store) (actionID : Nat) (userID : Nat) :
    Except ServiceError Store :=
  match s.findAction actionID with
  | none => .error .recordNotFound
  | some action =>
      match s.findCollection action.collectionID with
      | none => .error .collectionNotFound
      | some collection =>
          if collection.userID ≠ userID then .error .notCollectionOwner
          else .ok { s with actions := s.actions.filter (fun a => a.id ≠ actionID) }

/-- The collection handler's `Create` (handler builds the record with
`UserID` taken from the authenticated identity) followed by
`collectionService.Create` (existence check of the user, timestamps,
zeroed play count, insert).  `newID` is the primary key the database
assigns. -/
def handlerCreateCollection (s : Store) (req : CollectionRequest) (userID : Nat)
    (now : Int) (newID : Nat) : Except ServiceError (Collection × Store) :=
  let collection : Collection :=
    { id := newID
      name := req.name
      description := req.description
      imageURL := req.imageURL
      userID := userID
      playCount := 0
      createdAt := 0
      updatedAt := 0 }
  match s.findUser collection.userID with
  | none => .error .invalidUserID
  | some _ =>
      let collection := { collection with createdAt := now, updatedAt := now, playCount := 0 }
      .ok (collection, { s with collections := collection :: s.collections })

/-- Go method `userService.Authenticate` (user_service.go lines 144-157). -/
def authenticate (s : Store) (email : String) (password : String) :
    Except ServiceError User :=
  match s.findUserByEmail email with
  | none => .error .invalidCredentials
  | some user =>
      if compareHashAndPassword user.password password then .ok user
      else .error .invalidCredentials

/-- Go method `userService.GetByID` (user_service.go lines 66-72). -/
def getUserByID (s : Store) (id : Nat) : Except ServiceError User :=
  match s.findUser id with
  | none => .error .userNotFound
  | some user => .ok user

/-- The response body of the auth endpoints (`TokenResponse`). -/
structure TokenResponse where
  accessToken : Token AccessTokenClaims
  refreshToken : Token RefreshTokenClaims
  expiresAt : Int
deriving DecidableEq, Repr

/-- The failure outcomes of `AuthHandler.RefreshToken` as HTTP statuses. -/
inductive RefreshFailure where
  | unauthorized
  | userNotFound
  | tokenGeneration
deriving DecidableEq, Repr

/-- Go method `AuthHandler.RefreshToken` (auth handler, lines 105-139): validate the
refresh token, re-fetch the user by the subject in its claims, mint a new
pair from that user. -/
def refreshTokenHandler (cfg : JWTConfig) (s : Store) (now : Int)
    (accessUuid refreshUuid : String) (reqToken : Token RefreshTokenClaims) :
    Except RefreshFailure TokenResponse :=
  match ValidateRefreshToken cfg.secret now reqToken with
  | .error _ => .error .unauthorized
  | .ok claims =>
      match getUserByID s claims.userID with
      | .error _ => .error .userNotFound
      | .ok user =>
          let td := CreateToken cfg now accessUuid refreshUuid user
          .ok ⟨td.accessToken, td.refreshToken, td.atExpires⟩

/-! ## Concrete fixtures used by witnesses and counterexamples -/

/-- A sample user, owner of the sample collection. -/
def userA : User :=
  { id := 7, name := "Al", surname := "Smith", email := "a@x.com"
    password := generateFromPassword "abcdef", phone := "" }

/-- A sample collection owned by `userA`. -/
def colA : Collection :=
  { id := 1, name := "truths", description := "d", imageURL := "img"
    userID := 7, playCount := 0, createdAt := 0, updatedAt := 0 }

/-- A sample card inside `colA`. -/
def actA : Action :=
  { id := 5, text := "tell a truth", collectionID := 1, order := 1 }

/-- A sample store holding the three fixtures. -/
def store0 : Store :=
  { collections := [colA], actions := [actA], users := [userA] }

/-! ## Claim theorems -/

/-- Helper: for hour counts of magnitude at most 2562047 the int64 product
of nanoseconds does not overflow, and the expiry arithmetic is exactly
3600 seconds per configured hour.  At 2562048 hours the product exceeds
2 to the 63rd and wraps. -/
theorem hour_duration_exact (e : Int) (h1 : -2562047 ≤ e) (h2 : e ≤ 2562047) :
    Int.fdiv (wrap64 (3600000000000 * e)) 1000000000 = 3600 * e := by
  have hlow : (0 : Int) ≤ 3600000000000 * e + 9223372036854775808 := by nlinarith
  have hhigh : 3600000000000 * e + 9223372036854775808 < 18446744073709551616 := by
    nlinarith
  have hw : wrap64 (3600000000000 * e) = 3600000000000 * e := by
    unfold wrap64
    rw [Int.emod_eq_of_lt hlow hhigh]
    ring
  rw [hw]
  have hx : (3600000000000 : Int) * e = 1000000000 * (3600 * e) := by ring
  rw [hx, Int.mul_fdiv_cancel_left]
  norm_num

/-- Helper: the constant 7-day refresh duration (604800000000000
nanoseconds, the value of the product in the source) does not overflow and
floors to exactly 604800 seconds. -/
theorem refresh_duration_const :
    Int.fdiv (wrap64 604800000000000) 1000000000 = 604800 := by
  decide

/-- C3: for every collection update or delete, an absent collection denies
with CollectionNotFound regardless of the identity, an existing collection
whose owner differs from the identity denies with NotOwner, a matching
owner is allowed to proceed; the existence check comes first. -/
theorem collection_mutation_authorization (s : Store) (req : Collection)
    (userID : Nat) (now : Int) :
    (s.findCollection req.id = none →
      collectionUpdate s req userID now = .error .collectionNotFound ∧
      collectionDelete s req.id userID = .error .collectionNotFound) ∧
    (∀ existing, s.findCollection req.id = some existing →
      existing.userID ≠ userID →
      collectionUpdate s req userID now = .error .notCollectionOwner ∧
      collectionDelete s req.id userID = .error .notCollectionOwner) ∧
    (∀ existing, s.findCollection req.id = some existing →
      existing.userID = userID →
      (∃ r, collectionUpdate s req userID now = .ok r) ∧
      (∃ s2, collectionDelete s req.id userID = .ok s2)) := by
  refine ⟨fun h => ?_, fun existing h hne => ?_, fun existing h he => ?_⟩
  · simp [collectionUpdate, collectionDelete, h]
  · simp [collectionUpdate, collectionDelete, h, hne]
  · simp [collectionUpdate, collectionDelete, h, he]

/-- Witness for C3 on the concrete store: absent id 2 is NotFound for the
owner, id 1 is NotOwner for user 8, and the owner 7 may update and delete. -/
theorem collection_mutation_authorization_witness :
    (collectionUpdate store0 { colA with id := 2 } 7 0 = .error .collectionNotFound ∧
      collectionDelete store0 2 7 = .error .collectionNotFound) ∧
    (collectionUpdate store0 colA 8 0 = .error .notCollectionOwner ∧
      collectionDelete store0 1 8 = .error .notCollectionOwner) ∧
    ((∃ r, collectionUpdate store0 colA 7 0 = .ok r) ∧
      (∃ s2, collectionDelete store0 1 7 = .ok s2)) :=
  ⟨(collection_mutation_authorization store0 { colA with id := 2 } 7 0).1 (by decide),
    (collection_mutation_authorization store0 colA 8 0).2.1 colA (by decide) (by decide),
    (collection_mutation_authorization store0 colA 7 0).2.2 colA (by decide) (by decide)⟩

/-- C6 counterexample: with no card of id 99 in the store, `RemoveAction`
returns the raw repository record-not-found error verbatim, which is not
the CollectionNotFound error the service (and its handler, which maps only
CollectionNotFound to a 404) uses to signal a missing resource. -/
theorem removeAction_absent_card_counterexample :
    removeAction store0 99 7 = .error .recordNotFound ∧
    ServiceError.recordNotFound ≠ ServiceError.collectionNotFound ∧
    ServiceError.recordNotFound ≠ ServiceError.userNotFound :=
  ⟨rfl, by decide, by decide⟩

/-- C6 amended: card removal authorizes against the parent collection's
recorded owner (a card has no owner field); a mismatch signals NotOwner and
a match deletes the card; an absent parent collection signals
CollectionNotFound; but an absent card propagates the repository's
record-not-found error verbatim rather than the service's CollectionNotFound. -/
theorem removeAction_authorizes_against_parent (s : Store) (actionID userID : Nat) :
    (s.findAction actionID = none →
      removeAction s actionID userID = .error .recordNotFound) ∧
    (∀ action, s.findAction actionID = some action →
      (s.findCollection action.collectionID = none →
        removeAction s actionID userID = .error .collectionNotFound) ∧
      (∀ collection, s.findCollection action.collectionID = some collection →
        (collection.userID ≠ userID →
          removeAction s actionID userID = .error .notCollectionOwner) ∧
        (collection.userID = userID →
          removeAction s actionID userID =
            .ok { s with actions := s.actions.filter (fun a => a.id ≠ actionID) }))) := by
  refine ⟨fun h => ?_, fun action h => ⟨fun hc => ?_, fun collection hc => ⟨fun hne => ?_, fun he => ?_⟩⟩⟩
  · simp [removeAction, h]
  · simp [removeAction, h, hc]
  · simp [removeAction, h, hc, hne]
  · simp [removeAction, h, hc, he]

/-- Witness for C6 amended on the concrete store: user 8 is refused removal
of card 5 because collection 1 belongs to user 7, and user 7 may remove it. -/
theorem removeAction_authorizes_against_parent_witness :
    (removeAction store0 5 8 = .error .notCollectionOwner) ∧
    (removeAction store0 5 7 =
      .ok { store0 with actions := store0.actions.filter (fun a => a.id ≠ 5) }) :=
  ⟨(((removeAction_authorizes_against_parent store0 5 8).2 actA (by decide)).2
      colA (by decide)).1 (by decide),
    (((removeAction_authorizes_against_parent store0 5 7).2 actA (by decide)).2
      colA (by decide)).2 (by decide)⟩

/-- C7: an allowed update never changes the stored collection's owner
reference, and creation sets the owner from the authenticated identity. -/
theorem ownership_set_once_at_creation (s : Store) (req : Collection)
    (userID : Nat) (now : Int) (reqBody : CollectionRequest) (newID : Nat) :
    (∀ existing saved s2, s.findCollection req.id = some existing →
      collectionUpdate s req userID now = .ok (saved, s2) →
      saved.userID = existing.userID ∧ saved.id = existing.id) ∧
    (∀ c s3, handlerCreateCollection s reqBody userID now newID = .ok (c, s3) →
      c.userID = userID) := by
  constructor
  · intro existing saved s2 h hok
    rw [collectionUpdate, h] at hok
    by_cases hne : existing.userID ≠ userID
    · simp [hne] at hok
    · simp [hne] at hok
      obtain ⟨h1, _⟩ := hok
      simp [← h1]
  · intro c s3 hok
    rw [handlerCreateCollection] at hok
    cases hfind : s.findUser userID <;> simp [hfind] at hok
    obtain ⟨h1, _⟩ := hok
    simp [← h1]

/-- The record stored by the witness update of C7. -/
def savedC7 : Collection :=
  { id := 1, name := "n2", description := "d", imageURL := "img"
    userID := 7, playCount := 0, createdAt := 0, updatedAt := 3 }

/-- The store after the witness update of C7. -/
def storeC7 : Store := { collections := [savedC7], actions := [actA], users := [userA] }

/-- The record created by the witness create of C7. -/
def createdC7 : Collection :=
  { id := 2, name := "n", description := "d", imageURL := ""
    userID := 7, playCount := 0, createdAt := 3, updatedAt := 3 }

/-- The store after the witness create of C7. -/
def storeC7b : Store :=
  { collections := [createdC7, colA], actions := [actA], users := [userA] }

/-- Witness for C7: updating collection 1 as its owner 7 keeps owner 7 on
the saved record, and a create by user 7 records owner 7. -/
theorem ownership_set_once_at_creation_witness :
    savedC7.userID = colA.userID ∧ savedC7.id = colA.id ∧ createdC7.userID = 7 :=
  have h1 := (ownership_set_once_at_creation store0 { colA with name := "n2" } 7 3
    ⟨"n", "d", ""⟩ 2).1 colA savedC7 storeC7 rfl rfl
  have h2 := (ownership_set_once_at_creation store0 { colA with name := "n2" } 7 3
    ⟨"n", "d", ""⟩ 2).2 createdC7 storeC7b rfl
  ⟨h1.1, h1.2, h2⟩

/-- C8: Authenticate returns the same InvalidCredentials error both when no
user with the email exists and when the stored hash does not match the
password; indeed every failure of Authenticate is InvalidCredentials. -/
theorem authenticate_uniform_failure (s : Store) (email password : String) :
    (s.findUserByEmail email = none →
      authenticate s email password = .error .invalidCredentials) ∧
    (∀ user, s.findUserByEmail email = some user →
      compareHashAndPassword user.password password = false →
      authenticate s email password = .error .invalidCredentials) ∧
    (∀ e, authenticate s email password = .error e → e = .invalidCredentials) := by
  refine ⟨fun h => ?_, fun user h hcmp => ?_, fun e he => ?_⟩
  · simp [authenticate, h]
  · simp [authenticate, h, hcmp]
  · rw [authenticate] at he
    cases hfind : s.findUserByEmail email with
    | none => simp [hfind] at he; exact he.symm
    | some user =>
        simp [hfind] at he
        by_cases hcmp : compareHashAndPassword user.password password = true <;>
          simp [hcmp] at he
        exact he.symm

/-- Witness for C8: an unknown email and a wrong password for a known email
produce the identical error value on the concrete store. -/
theorem authenticate_uniform_failure_witness :
    authenticate store0 "nobody@x.com" "abcdef" = .error .invalidCredentials ∧
    authenticate store0 "a@x.com" "wrong" = .error .invalidCredentials :=
  ⟨(authenticate_uniform_failure store0 "nobody@x.com" "abcdef").1 (by decide),
    (authenticate_uniform_failure store0 "a@x.com" "wrong").2.1 userA (by decide) (by decide)⟩

/-- C10: an allowed update with an empty ImageURL keeps the stored image
URL, while Name and Description are always overwritten with the request's
values, including empty ones. -/
theorem update_image_kept_name_description_overwritten (s : Store)
    (req : Collection) (userID : Nat) (now : Int) :
    ∀ existing saved s2, s.findCollection req.id = some existing →
      collectionUpdate s req userID now = .ok (saved, s2) →
      (req.imageURL = "" → saved.imageURL = existing.imageURL) ∧
      saved.name = req.name ∧ saved.description = req.description := by
  intro existing saved s2 h hok
  rw [collectionUpdate, h] at hok
  by_cases hne : existing.userID ≠ userID
  · simp [hne] at hok
  · simp [hne] at hok
    obtain ⟨h1, _⟩ := hok
    subst h1
    refine ⟨fun himg => ?_, by simp, by simp⟩
    simp [himg]

/-- The record stored by the witness update of C10: empty name and
description taken over, image kept. -/
def savedC10 : Collection :=
  { id := 1, name := "", description := "", imageURL := "img"
    userID := 7, playCount := 0, createdAt := 0, updatedAt := 9 }

/-- The store after the witness update of C10. -/
def storeC10 : Store := { collections := [savedC10], actions := [actA], users := [userA] }

/-- Witness for C10: an update request with empty name, description and
image URL keeps the image while blanking name and description. -/
theorem update_image_kept_witness :
    savedC10.imageURL = colA.imageURL ∧ savedC10.name = "" ∧ savedC10.description = "" :=
  have r := update_image_kept_name_description_overwritten store0
    { colA with name := "", description := "", imageURL := "" } 7 9 colA savedC10 storeC10
    rfl rfl
  ⟨r.1 rfl, r.2.1, r.2.2⟩

/-- C4 counterexample: the env loader accepts JWT_EXPIRES_IN equal to
"2562048", and at that configuration the int64 nanosecond product wraps,
so the access token issued at time 0 expires at -9223371274 — about 292
years before its issue time — and not at issue time plus 3600 seconds per
configured hour. -/
theorem createToken_expiry_wrap_counterexample :
    loadExpiresIn "2562048" = 2562048 ∧
    (CreateToken ⟨"k", 2562048⟩ 0 "a" "r" userA).atExpires = -9223371274 ∧
    (CreateToken ⟨"k", 2562048⟩ 0 "a" "r" userA).atExpires ≠ 0 + 3600 * 2562048 :=
  ⟨by decide, rfl, by decide⟩

/-- C4 amended: whenever the configured hour count stays within the range
where the int64 nanosecond product does not overflow (magnitude at most
2562047 hours, which includes the env loader's default of 24), every
issuance gives the access token an expiry of the issue time plus 3600
seconds per configured hour; the refresh token's expiry is always the
issue time plus exactly 7 days, with no dependence on the access-token
configuration. -/
theorem createToken_expiry_arithmetic (cfg : JWTConfig) (now : Int)
    (aU rU : String) (user : User)
    (h1 : -2562047 ≤ cfg.expiresIn) (h2 : cfg.expiresIn ≤ 2562047) :
    (CreateToken cfg now aU rU user).atExpires = now + 3600 * cfg.expiresIn ∧
    (CreateToken cfg now aU rU user).accessToken.claims.registered.expiresAt =
      now + 3600 * cfg.expiresIn ∧
    (CreateToken cfg now aU rU user).accessToken.claims.registered.issuedAt = now ∧
    (CreateToken cfg now aU rU user).rtExpires = now + 7 * 24 * 3600 ∧
    (CreateToken cfg now aU rU user).refreshToken.claims.registered.expiresAt =
      now + 7 * 24 * 3600 ∧
    (CreateToken cfg now aU rU user).refreshToken.claims.registered.issuedAt = now ∧
    loadExpiresIn "" = 24 := by
  have hD := hour_duration_exact cfg.expiresIn h1 h2
  refine ⟨?_, ?_, rfl, ?_, ?_, rfl, rfl⟩ <;>
    simp [CreateToken, signedToken, hD, refresh_duration_const]

/-- Witness for C4 amended: with the default lifetime 24 the expiries
issued at time 5 are 5 + 86400 and 5 + 604800. -/
theorem createToken_expiry_arithmetic_witness :
    (CreateToken ⟨"k", 24⟩ 5 "a" "r" userA).atExpires = 5 + 3600 * 24 ∧
    (CreateToken ⟨"k", 24⟩ 5 "a" "r" userA).rtExpires = 5 + 7 * 24 * 3600 :=
  ⟨(createToken_expiry_arithmetic ⟨"k", 24⟩ 5 "a" "r" userA (by decide) (by decide)).1,
    (createToken_expiry_arithmetic ⟨"k", 24⟩ 5 "a" "r" userA (by decide) (by decide)).2.2.2.1⟩

/-- C9 counterexample: the env loader accepts JWT_EXPIRES_IN equal to "0"
(config.go lines 92-98), and with that configuration the access token
issued at time 0 has its expiry equal to its issue time, not after it; the
loader likewise accepts "2562048", where the int64 duration product wraps
and the expiry even precedes the issue time. -/
theorem token_expiry_counterexample :
    loadExpiresIn "0" = 0 ∧
    (CreateToken ⟨"k", loadExpiresIn "0"⟩ 0 "a" "r" userA).accessToken.claims.registered.issuedAt = 0 ∧
    (CreateToken ⟨"k", loadExpiresIn "0"⟩ 0 "a" "r" userA).accessToken.claims.registered.expiresAt = 0 ∧
    ¬ ((CreateToken ⟨"k", loadExpiresIn "0"⟩ 0 "a" "r" userA).accessToken.claims.registered.issuedAt <
        (CreateToken ⟨"k", loadExpiresIn "0"⟩ 0 "a" "r" userA).accessToken.claims.registered.expiresAt) ∧
    (CreateToken ⟨"k", loadExpiresIn "2562048"⟩ 0 "a" "r" userA).accessToken.claims.registered.expiresAt <
      (CreateToken ⟨"k", loadExpiresIn "2562048"⟩ 0 "a" "r" userA).accessToken.claims.registered.issuedAt := by
  refine ⟨by decide, rfl, by decide, by decide, by decide⟩

/-- C9 amended: every issued refresh token expires strictly after its issue
time; an issued access token does so whenever the configured lifetime lies
between 1 and 2562047 hours — positive and below the int64 overflow of the
duration product — which holds for the loader's default of 24 but fails
for the loader-accepted values 0 (expiry equals issue time) and 2562048 or
more (the product wraps and expiry precedes issue time). -/
theorem token_expiry_after_issue (cfg : JWTConfig) (now : Int)
    (aU rU : String) (user : User) :
    ((CreateToken cfg now aU rU user).refreshToken.claims.registered.issuedAt <
      (CreateToken cfg now aU rU user).refreshToken.claims.registered.expiresAt) ∧
    (1 ≤ cfg.expiresIn → cfg.expiresIn ≤ 2562047 →
      (CreateToken cfg now aU rU user).accessToken.claims.registered.issuedAt <
        (CreateToken cfg now aU rU user).accessToken.claims.registered.expiresAt) ∧
    (1 ≤ loadExpiresIn "" ∧ loadExpiresIn "" ≤ 2562047) := by
  refine ⟨?_, fun h1 h2 => ?_, by decide⟩
  · simp [CreateToken, signedToken, refresh_duration_const]
  · have hD := hour_duration_exact cfg.expiresIn (by omega) h2
    simp [CreateToken, signedToken, hD]
    omega

/-- Witness for C9 amended: with the default lifetime 24 both tokens issued
at time 5 expire strictly after time 5. -/
theorem token_expiry_after_issue_witness :
    ((CreateToken ⟨"k", 24⟩ 5 "a" "r" userA).refreshToken.claims.registered.issuedAt <
      (CreateToken ⟨"k", 24⟩ 5 "a" "r" userA).refreshToken.claims.registered.expiresAt) ∧
    ((CreateToken ⟨"k", 24⟩ 5 "a" "r" userA).accessToken.claims.registered.issuedAt <
      (CreateToken ⟨"k", 24⟩ 5 "a" "r" userA).accessToken.claims.registered.expiresAt) :=
  ⟨(token_expiry_after_issue ⟨"k", 24⟩ 5 "a" "r" userA).1,
    (token_expiry_after_issue ⟨"k", 24⟩ 5 "a" "r" userA).2.1 (by decide) (by decide)⟩

/-- Helper: a successful `ValidateRefreshToken` returns exactly the claims
carried by the token. -/
theorem validateRefresh_ok_claims (secret : String) (now : Int)
    (tok : Token RefreshTokenClaims) (claims : RefreshTokenClaims)
    (h : ValidateRefreshToken secret now tok = .ok claims) : claims = tok.claims := by
  unfold ValidateRefreshToken at h
  rcases hp : parseWithClaims (fun c => c.registered) secret now tok with ⟨valid, err⟩
  rw [hp] at h
  cases err with
  | some e => simp at h
  | none =>
      by_cases hv : valid = true <;> simp [hv] at h
      by_cases he : tok.claims.registered.expiresAt < now <;> simp [he] at h
      exact h.symm

/-- Helper: a successful `getUserByID` comes from a successful repository
lookup. -/
theorem getUserByID_ok (s : Store) (id : Nat) (user : User)
    (h : getUserByID s id = .ok user) : s.findUser id = some user := by
  unfold getUserByID at h
  cases hf : s.findUser id <;> rw [hf] at h <;> simp at h
  rw [h]

/-- C5: whenever the refresh endpoint succeeds, the user record was
re-fetched by the subject reference in the refresh token's claims, and the
new access token carries exactly that record's current email. -/
theorem refresh_uses_current_email (cfg : JWTConfig) (s : Store) (now : Int)
    (aU rU : String) (tok : Token RefreshTokenClaims) (resp : TokenResponse)
    (h : refreshTokenHandler cfg s now aU rU tok = .ok resp) :
    ∃ user, s.findUser tok.claims.userID = some user ∧
      resp.accessToken.claims.email = user.email ∧
      resp.accessToken.claims.userID = user.id := by
  unfold refreshTokenHandler at h
  cases hv : ValidateRefreshToken cfg.secret now tok with
  | error e => rw [hv] at h; simp at h
  | ok claims =>
      rw [hv] at h
      have hc := validateRefresh_ok_claims cfg.secret now tok claims hv
      subst hc
      cases hg : getUserByID s tok.claims.userID with
      | error e => simp [hg] at h
      | ok user =>
          simp [hg] at h
          subst h
          exact ⟨user, getUserByID_ok s tok.claims.userID user hg, rfl, rfl⟩

/-- A user as currently stored, whose email differs from any earlier one. -/
def userNew : User :=
  { id := 7, name := "Al", surname := "Smith", email := "new@x.com"
    password := generateFromPassword "abcdef", phone := "" }

/-- A store holding only `userNew`. -/
def storeNew : Store := ⟨[], [], [userNew]⟩

/-- A refresh token for subject 7 minted at time 0, valid until time 1000. -/
def rtok0 : Token RefreshTokenClaims :=
  signedToken .HS256 "k" ⟨7, "r0", ⟨1000, 0, "bulb-api"⟩⟩

/-- The response the refresh endpoint produces for `rtok0` at time 10. -/
def respNew : TokenResponse :=
  ⟨signedToken .HS256 "k" ⟨7, "new@x.com", "a1", ⟨86410, 10, "bulb-api"⟩⟩,
    signedToken .HS256 "k" ⟨7, "r1", ⟨604810, 10, "bulb-api"⟩⟩, 86410⟩

/-- Witness for C5: refreshing with `rtok0` against the current store puts
the currently stored email new@x.com into the new access token. -/
theorem refresh_uses_current_email_witness :
    ∃ user, storeNew.findUser rtok0.claims.userID = some user ∧
      respNew.accessToken.claims.email = user.email ∧
      respNew.accessToken.claims.userID = user.id :=
  refresh_uses_current_email ⟨"k", 24⟩ storeNew 10 "a1" "r1" rtok0 respNew rfl

set_option maxRecDepth 100000 in
/-- C1 counterexample: the access token issued at time 0 with the default
24-hour lifetime, validated at time 86401 (one second past its expiry),
fails with the JWT parser's expired-claims validation error, which is not
the service's ErrExpiredToken sentinel; moreover with the loader-accepted
lifetimes 0 and 2562048 hours even validation immediately after issuance
fails (the token expires at issuance, respectively is born expired by the
int64 wrap), so the claim's success part also needs those lifetimes
excluded. -/
theorem validateAccess_expired_counterexample :
    ValidateAccessToken "k" 86401 (CreateToken ⟨"k", 24⟩ 0 "a" "r" userA).accessToken =
      .error (.validation ⟨false, false, true, false⟩) ∧
    TokenError.validation ⟨false, false, true, false⟩ ≠ TokenError.expiredToken ∧
    ValidateAccessToken "k" 0 (CreateToken ⟨"k", loadExpiresIn "0"⟩ 0 "a" "r" userA).accessToken =
      .error (.validation ⟨false, false, true, false⟩) ∧
    ValidateAccessToken "k" 0 (CreateToken ⟨"k", loadExpiresIn "2562048"⟩ 0 "a" "r" userA).accessToken =
      .error (.validation ⟨false, false, true, false⟩) :=
  ⟨rfl, by decide, rfl, rfl⟩

/-- C1 amended: with an access lifetime between 1 and 2562047 hours
(positive and below the int64 overflow of the duration product; the
default 24 qualifies), validation succeeds immediately after issuance;
once the current time passes the expiry, it fails with the JWT parser's
validation error carrying exactly the expired flag (no other error kind),
the service's own ErrExpiredToken check being unreachable because the
parser rejects expired tokens first. -/
theorem validateAccess_boundary (cfg : JWTConfig) (now0 now : Int)
    (aU rU : String) (user : User)
    (h : 1 ≤ cfg.expiresIn) (hb : cfg.expiresIn ≤ 2562047) :
    ValidateAccessToken cfg.secret now0 (CreateToken cfg now0 aU rU user).accessToken =
      .ok ⟨user.id, user.email, aU, ⟨now0 + 3600 * cfg.expiresIn, now0, "bulb-api"⟩⟩ ∧
    ((CreateToken cfg now0 aU rU user).atExpires < now →
      ValidateAccessToken cfg.secret now (CreateToken cfg now0 aU rU user).accessToken =
        .error (.validation ⟨false, false, true, false⟩)) := by
  have hD := hour_duration_exact cfg.expiresIn (by omega) hb
  have hgt : now0 < now0 + 3600 * cfg.expiresIn := by omega
  constructor
  · simp [ValidateAccessToken, parseWithClaims, CreateToken, signedToken,
      registeredClaimsValid, SigningMethod.isHMAC, ValidationFlags.ok, hD, hgt]
    omega
  · intro hlt
    rw [CreateToken] at hlt
    simp [hD] at hlt
    have h1 : ¬ (now < now0 + 3600 * cfg.expiresIn) := by omega
    have h2 : ¬ (now < now0) := by omega
    simp [ValidateAccessToken, parseWithClaims, CreateToken, signedToken,
      registeredClaimsValid, SigningMethod.isHMAC, ValidationFlags.ok, hD, h1, h2]

/-- Witness for C1 amended: concrete issuance at time 0 with lifetime 24
validates at time 0 and fails at time 90000 with the expired-flag error. -/
theorem validateAccess_boundary_witness :
    ValidateAccessToken "k" 0 (CreateToken ⟨"k", 24⟩ 0 "a" "r" userA).accessToken =
      .ok ⟨userA.id, userA.email, "a", ⟨0 + 3600 * 24, 0, "bulb-api"⟩⟩ ∧
    ValidateAccessToken "k" 90000 (CreateToken ⟨"k", 24⟩ 0 "a" "r" userA).accessToken =
      .error (.validation ⟨false, false, true, false⟩) :=
  ⟨(validateAccess_boundary ⟨"k", 24⟩ 0 90000 "a" "r" userA (by decide) (by decide)).1,
    (validateAccess_boundary ⟨"k", 24⟩ 0 90000 "a" "r" userA (by decide) (by decide)).2
      (by decide)⟩

/-- Helper: with a non-HMAC header or a signature whose key is not the
verifier's secret, the parse step fails with a validation error whose
unverifiable or signature-invalid flag is set. -/
theorem parseWithClaims_rejects {C : Type} [DecidableEq C] (reg : C → RegisteredClaims)
    (secret : String) (now : Int) (tok : Token C)
    (h : tok.method.isHMAC = false ∨ tok.sig.key ≠ secret) :
    ∃ flags : ValidationFlags,
      parseWithClaims reg secret now tok = (false, some (.validation flags)) ∧
      (flags.unverifiable = true ∨ flags.signatureInvalid = true) := by
  by_cases hm : tok.method.isHMAC = true
  · have hk : tok.sig.key ≠ secret := by
      rcases h with h | h
      · rw [hm] at h; cases h
      · exact h
    have hsig : tok.sig ≠ ⟨tok.method, secret, tok.claims⟩ := by
      intro he
      exact hk (by rw [he])
    refine ⟨{ registeredClaimsValid now (reg tok.claims) with signatureInvalid := true },
      ?_, Or.inr rfl⟩
    simp [parseWithClaims, hm, hsig, ValidationFlags.ok]
  · refine ⟨{ unverifiable := true }, ?_, Or.inl rfl⟩
    simp [parseWithClaims, hm]

/-- C2 counterexample: an unexpired, well-formed access token signed with
the key "other" is rejected by a verifier configured with "k" via the JWT
parser's signature-invalid validation error, which is not the service's
ErrInvalidToken sentinel. -/
theorem validateAccess_wrong_key_counterexample :
    ValidateAccessToken "k" 0
        (signedToken .HS256 "other" (⟨7, "a@x.com", "u1", ⟨100, 0, "bulb-api"⟩⟩ : AccessTokenClaims)) =
      .error (.validation ⟨false, true, false, false⟩) ∧
    TokenError.validation ⟨false, true, false, false⟩ ≠ TokenError.invalidToken :=
  ⟨rfl, by decide⟩

/-- C2 amended: a token signed with a different or absent key, or whose
header declares a non-HMAC algorithm, is rejected by both validators with
the JWT parser's validation error whose unverifiable or signature-invalid
flag is set — an error distinct from the pure-expiry error and from both
service sentinels, neither of which is ever returned on this path. -/
theorem validate_rejects_wrong_key (secret : String) (now : Int)
    (atok : Token AccessTokenClaims) (rtok : Token RefreshTokenClaims) :
    (atok.method.isHMAC = false ∨ atok.sig.key ≠ secret →
      ∃ flags, ValidateAccessToken secret now atok = .error (.validation flags) ∧
        (flags.unverifiable = true ∨ flags.signatureInvalid = true) ∧
        TokenError.validation flags ≠ TokenError.invalidToken ∧
        TokenError.validation flags ≠ TokenError.expiredToken ∧
        flags ≠ { expired := true }) ∧
    (rtok.method.isHMAC = false ∨ rtok.sig.key ≠ secret →
      ∃ flags, ValidateRefreshToken secret now rtok = .error (.validation flags) ∧
        (flags.unverifiable = true ∨ flags.signatureInvalid = true) ∧
        TokenError.validation flags ≠ TokenError.invalidToken ∧
        TokenError.validation flags ≠ TokenError.expiredToken ∧
        flags ≠ { expired := true }) := by
  constructor
  · intro h
    obtain ⟨flags, hp, hfl⟩ :=
      parseWithClaims_rejects (fun c => c.registered) secret now atok h
    refine ⟨flags, ?_, hfl, by simp, by simp, ?_⟩
    · simp only [ValidateAccessToken, hp]
    · intro he
      subst he
      rcases hfl with h1 | h1 <;> simp at h1
  · intro h
    obtain ⟨flags, hp, hfl⟩ :=
      parseWithClaims_rejects (fun c => c.registered) secret now rtok h
    refine ⟨flags, ?_, hfl, by simp, by simp, ?_⟩
    · simp only [ValidateRefreshToken, hp]
    · intro he
      subst he
      rcases hfl with h1 | h1 <;> simp at h1

/-- Witness for C2 amended: a wrong-key access token and a non-HMAC refresh
token are both rejected with flagged validation errors. -/
theorem validate_rejects_wrong_key_witness :
    (∃ flags, ValidateAccessToken "k" 0
        (signedToken .HS256 "other" (⟨7, "a@x.com", "u1", ⟨100, 0, "bulb-api"⟩⟩ : AccessTokenClaims)) =
          .error (.validation flags) ∧
      (flags.unverifiable = true ∨ flags.signatureInvalid = true) ∧
      TokenError.validation flags ≠ TokenError.invalidToken ∧
      TokenError.validation flags ≠ TokenError.expiredToken ∧
      flags ≠ { expired := true }) ∧
    (∃ flags, ValidateRefreshToken "k" 0
        (signedToken .RS256 "k" (⟨7, "u2", ⟨100, 0, "bulb-api"⟩⟩ : RefreshTokenClaims)) =
          .error (.validation flags) ∧
      (flags.unverifiable = true ∨ flags.signatureInvalid = true) ∧
      TokenError.validation flags ≠ TokenError.invalidToken ∧
      TokenError.validation flags ≠ TokenError.expiredToken ∧
      flags ≠ { expired := true }) :=
  ⟨(validate_rejects_wrong_key "k" 0
        (signedToken .HS256 "other" (⟨7, "a@x.com", "u1", ⟨100, 0, "bulb-api"⟩⟩ : AccessTokenClaims))
        (signedToken .RS256 "k" (⟨7, "u2", ⟨100, 0, "bulb-api"⟩⟩ : RefreshTokenClaims))).1
      (Or.inr (by decide)),
    (validate_rejects_wrong_key "k" 0
        (signedToken .HS256 "other" (⟨7, "a@x.com", "u1", ⟨100, 0, "bulb-api"⟩⟩ : AccessTokenClaims))
        (signedToken .RS256 "k" (⟨7, "u2", ⟨100, 0, "bulb-api"⟩⟩ : RefreshTokenClaims))).2
      (Or.inl (by decide))⟩

end Bulb
